import Mathlib

/-!
Shallow embedding of src/zoom.js (iliran11/select-zoom), a pinch-zoom / pan
gesture engine. JavaScript numbers are modelled by the rationals; all the
arithmetic the verified claims exercise is exact. Division in the rationals
is total with x / 0 = 0, while the floating-point division of the source by zero
yields non-finite values; comments mark the one place (rotscale on a zero
source vector) where this matters, and no theorem below depends on the value
a division by zero produces, only on whether the surrounding update happens.
-/

/-- Type Vector is [ x, y ]: a 2D vector, an ordered pair of rationals. -/
abbrev Vec := ℚ × ℚ

/-- Type Matrix is [ [a00, a10], [a01, a11] ]: a pair of column vectors,
first component is the image of the x-axis, second of the y-axis. -/
abbrev Mat := Vec × Vec

/-- Multiply Scalar with Vector returns a Vector (source: scmult). -/
def scmult (l : ℚ) (x : Vec) : Vec := (l * x.1, l * x.2)

/-- Adding two vectors is another vector (source: vcadd). -/
def vcadd (a b : Vec) : Vec := (a.1 + b.1, a.2 + b.2)

/-- Subtracting two vectors is another vector (source: minus). -/
def minus (a b : Vec) : Vec := (a.1 - b.1, a.2 - b.2)

/-- Dot product of two vectors is scalar (source: dot). -/
def dot (a b : Vec) : ℚ := a.1 * b.1 + a.2 * b.2

/-- Exterior product of two vectors is a pseudoscalar (source: wedge). -/
def wedge (a b : Vec) : ℚ := a.1 * b.2 - a.2 * b.1

/-- Apply Matrix on Vector returns a Vector (source: apply),
vcadd(scmult(x[0], A[0]), scmult(x[1], A[1])). -/
def apply (A : Mat) (x : Vec) : Vec := vcadd (scmult x.1 A.1) (scmult x.2 A.2)

/-- Multiply two matrices (source: mult), [ apply(A, B[0]), apply(A, B[1]) ]. -/
def mult (A B : Mat) : Mat := (apply A B.1, apply A B.2)

/-- Observable state of the scrollable surface element that
Transform.prototype.css reads through this.elem, together with the global
screen.height it also reads. The source reads these from the DOM; the
embedding passes them as an explicit snapshot. datasetScrollTop models the
numeric value stored in elem.dataset.scrollTop (written by repaint). -/
structure BoundaryCtx where
  scrollTop : ℚ
  datasetScrollTop : ℚ
  scrollHeight : ℚ
  clientWidth : ℚ
  screenHeight : ℚ
deriving DecidableEq, Repr

/-- The six numbers of the returned CSS string
matrix(A[0][0], A[0][1], A[1][0], A[1][1], b[0], bb), in that order. -/
structure Descriptor where
  m00 : ℚ
  m01 : ℚ
  m10 : ℚ
  m11 : ℚ
  t0 : ℚ
  t1 : ℚ
deriving DecidableEq, Repr

/-- Represents a transform operation, Ax + b (source: function Transform).
The third constructor argument elem is the (optional) reference to the
surface element; here it is modelled as a flag saying whether the reference
is present, the observable state of the referenced element being passed to css
separately as a BoundaryCtx. -/
structure Transform where
  A : Mat
  b : Vec
  elem : Bool
deriving DecidableEq, Repr

/-- Transform.prototype.css. The source mutates this.A and this.b in place
(the scale floor on the diagonal always, the pan clamps on b only when elem
is present); the embedding returns the post-call transform together with the
result: some descriptor for the returned matrix(...) string, none both for
the explicit return false (scroll mode) and for the implicit undefined
returned when elem is absent (the whole return statement sits inside
if (elem)). -/
def Transform.css (T : Transform) (ctx : BoundaryCtx) : Transform × Option Descriptor :=
  -- Disable zoom out: if (A[0][0] < 1) A[0][0] = 1; if (A[1][1] < 1) A[1][1] = 1;
  let a00 := if T.A.1.1 < 1 then 1 else T.A.1.1
  let a11 := if T.A.2.2 < 1 then 1 else T.A.2.2
  let A : Mat := ((a00, T.A.1.2), (T.A.2.1, a11))
  if T.elem then
    -- var st = elem.scrollTop > 0 ? elem.scrollTop : scrollTop;
    let st := if ctx.scrollTop > 0 then ctx.scrollTop else ctx.datasetScrollTop
    -- Calculate x and y axis pan borders
    let dy := if ctx.screenHeight ≤ ctx.scrollHeight then
        ctx.scrollHeight * a00 - ctx.screenHeight - st * a00
      else
        abs (ctx.screenHeight - ctx.scrollHeight * a00)
    let dx := ctx.clientWidth * a00 - ctx.clientWidth
    -- Set pan borders (in-place clamps of b[1] then b[0])
    let b1 := if T.b.2 > st * a00 then st * a00 else T.b.2
    let b1 := if b1 < -dy then -dy else b1
    let b0 := if T.b.1 > 0 then (0 : ℚ) else T.b.1
    let b0 := if b0 < -dx then -dx else b0
    let T2 : Transform := ⟨A, (b0, b1), T.elem⟩
    -- Return false for scroll mode
    if a00 = 1 ∧ a11 = 1 then (T2, none)
    else (T2, some ⟨a00, T.A.1.2, T.A.2.1, a11, b0, b1 - st * a00⟩)
  else
    (⟨A, T.b, T.elem⟩, none)

/-- Multiply two transforms, (T o U)(x) = T(U(x)) (source: cascade). -/
def cascade (T U : Transform) (elem : Bool) : Transform :=
  ⟨mult T.A U.A, vcadd (apply T.A U.b) T.b, elem⟩

/-- Creates the default rotation matrix [ [c, s], [-s, c] ] (source: rotate). -/
def rotate (c s : ℚ) : Mat := ((c, s), (-s, c))

/-- Returns matrix that transforms vector a to vector b (source: rotscale).
When dot(a, a) = 0 the source divides by zero (yielding non-finite entries);
in this embedding the total rational division then yields 0 entries. No
theorem below relies on the value produced in that degenerate case. -/
def rotscale (a b : Vec) : Mat :=
  let alen := dot a a
  let sig := dot a b
  let del := wedge a b
  rotate (sig / alen) (del / alen)

/-- Source: justscale, rotate(blen / alen, 0) with alen, blen the vector
lengths. The source takes real square roots via Math.sqrt; they are modelled
with Rat.sqrt. No claim below exercises this scale-only branch (every claim
runs the solver with rotation enabled), so the approximation is inert. -/
def justscale (a b : Vec) : Mat :=
  let alen := Rat.sqrt (dot a a)
  let blen := Rat.sqrt (dot b b)
  rotate (blen / alen) 0

/-- Zoom is a similarity preserving transform from a pair of source points
to a pair of destination points (source: zoom). -/
def zoom (s d : Vec × Vec) (rot : Bool) (elem : Bool) : Transform :=
  -- Source vector.
  let a := minus s.2 s.1
  -- Destination vector.
  let b := minus d.2 d.1
  -- Rotation needed for source to dest vector.
  let rs := if rot then rotscale a b else justscale a b
  -- Position of s[0] if rotation is applied.
  let rs0 := apply rs s.1
  -- Since d[0] = rs0 + t
  let t := minus d.1 rs0
  ⟨rs, t, elem⟩

/-- Weighted average of two vectors, (1-p) u + p v (source: avgVector). -/
def avgVector (u v : Vec) (progress : ℚ) : Vec :=
  vcadd (scmult (1 - progress) u) (scmult progress v)

/-- Weighted average of two matrices (source: avgMatrix). -/
def avgMatrix (A B : Mat) (progress : ℚ) : Mat :=
  (avgVector A.1 B.1 progress, avgVector A.2 B.2 progress)

/-- Weighted average of two transforms (source: Transform.avg). The source
constructs new Transform(..., ...) with the elem argument omitted, so the
result carries no element reference. -/
def Transform.avg (Z I : Transform) (progress : ℚ) : Transform :=
  ⟨avgMatrix Z.A I.A progress, avgVector Z.b I.b progress, false⟩

/-- Source: var identity = new Transform([[1, 0], [0, 1]], [0, 0]);
elem omitted, hence absent. -/
def identity : Transform := ⟨((1, 0), (0, 1)), (0, 0), false⟩

/-- The affine map a Transform denotes, f(x) = A(x) + b, per the
documentation comment of the constructor in the source. -/
def Transform.applyTo (T : Transform) (x : Vec) : Vec :=
  vcadd (apply T.A x) T.b

/-- Mutable state of a Zoom instance (source: function Zoom constructor),
together with the observable state of its element that the handlers read and
write: ctx is the element snapshot css and repaint consult (the element and
the elem reference of a transform alias the same DOM object), overflow and
transformStyle are the element style fields repaint writes (transformStyle
is some d for the matrix(...) string of d, none for the string none). -/
structure ZoomState where
  zooming : Bool
  inZoom : Bool
  tapped : Bool
  activeZoom : Transform
  resultantZoom : Transform
  srcCoords : Vec × Vec
  ctx : BoundaryCtx
  overflow : String
  transformStyle : Option Descriptor
deriving DecidableEq, Repr

/-- Zoom.prototype.finalize: this.activeZoom = this.resultantZoom. -/
def Zoom.finalize (st : ZoomState) : ZoomState :=
  { st with activeZoom := st.resultantZoom }

/-- Zoom.prototype.repaint. The source calls this.resultantZoom.css() once
for the truthiness test and, in the zoom branch, a second time for the style
assignment; both calls mutate resultantZoom in place, and the zoom branch
stores elem.scrollTop into elem.dataset.scrollTop (when positive) between
the two calls. -/
def Zoom.repaint (st : ZoomState) : ZoomState :=
  let c1 := st.resultantZoom.css st.ctx
  match c1.2 with
  | some _ =>
      -- if (this.elem.scrollTop > 0) this.elem.dataset.scrollTop = this.elem.scrollTop;
      let ctx := if st.ctx.scrollTop > 0 then
          { st.ctx with datasetScrollTop := st.ctx.scrollTop }
        else st.ctx
      -- this.elem.style.transform = this.resultantZoom.css(); (second call)
      let c2 := c1.1.css ctx
      { st with
        ctx := ctx, inZoom := true, resultantZoom := c2.1,
        transformStyle := c2.2, overflow := "visible" }
  | none =>
      { st with
        inZoom := false, resultantZoom := c1.1,
        overflow := "scroll", transformStyle := none }

/-- Zoom.prototype.previewZoom: this.resultantZoom =
cascade(additionalZoom, this.activeZoom, this.elem); this.repaint().
The elem argument is the element of the instance, hence present (true). -/
def Zoom.previewZoom (st : ZoomState) (additionalZoom : Transform) : ZoomState :=
  Zoom.repaint { st with resultantZoom := cascade additionalZoom st.activeZoom true }

/-- Zoom.prototype.setZoom: this.resultantZoom = newZoom; this.finalize();
this.repaint(). -/
def Zoom.setZoom (st : ZoomState) (newZoom : Transform) : ZoomState :=
  Zoom.repaint (Zoom.finalize { st with resultantZoom := newZoom })

/-- The touchmove listener, modelled from the guards onward: destCoords is
the point pair getCoords derives from the touch list, rot is config.rotate.
Inside the listener the zoom call passes this.elem with this bound to
elem.parentNode, whose elem property is undefined, so the incremental
transform carries no element reference (false); previewZoom then reattaches
the element when cascading. There is no guard on a zero source delta: when a
session is active the solver always runs. -/
def Zoom.touchmove (st : ZoomState) (destCoords : Vec × Vec) (rot : Bool) : ZoomState :=
  if !st.inZoom && !st.zooming then st
  else if !st.zooming then st
  else Zoom.previewZoom st (zoom st.srcCoords destCoords rot false)

/-- The touchend listener: when a session is active, clear zooming and
finalize; otherwise leave the state alone. -/
def Zoom.touchend (st : ZoomState) : ZoomState :=
  if !st.inZoom && !st.zooming then st
  else if st.zooming then Zoom.finalize { st with zooming := false }
  else st

/-- Helper: Zoom.prototype.repaint never touches activeZoom, in either of
its two branches. -/
theorem Zoom.repaint_activeZoom (st : ZoomState) :
    (Zoom.repaint st).activeZoom = st.activeZoom := by
  cases h : (st.resultantZoom.css st.ctx).2 <;> simp [Zoom.repaint, h]

/-- Helper: css on a transform carrying no element reference returns no
descriptor (the return of the source sits inside if (elem), so the call returns
undefined) and leaves the translation untouched. -/
theorem Transform.css_no_elem (T : Transform) (ctx : BoundaryCtx)
    (h : T.elem = false) :
    (T.css ctx).2 = none ∧ (T.css ctx).1.b = T.b := by
  unfold Transform.css
  simp [h]

/-- C8: composing with the identity transform on either side preserves the
transform: cascade(T, identity) and cascade(identity, T) both agree with T
in matrix and translation. -/
theorem cascade_with_identity (T : Transform) (e : Bool) :
    ((cascade T identity e).A = T.A ∧ (cascade T identity e).b = T.b) ∧
    ((cascade identity T e).A = T.A ∧ (cascade identity T e).b = T.b) := by
  obtain ⟨⟨⟨a00, a10⟩, ⟨a01, a11⟩⟩, ⟨b0, b1⟩, el⟩ := T
  simp only [cascade, identity, mult, apply, vcadd, scmult, Prod.ext_iff]
  norm_num

/-- C9 counterexample: interpolation does not literally hit its left
endpoint: Transform.avg drops the element reference, so at progress 0 the
result differs from a source transform that carries one. -/
theorem avg_at_zero_ne_endpoint :
    Transform.avg ⟨((2, 0), (0, 2)), (3, 4), true⟩ identity 0 ≠
      ⟨((2, 0), (0, 2)), (3, 4), true⟩ := by
  intro h
  have helem := congrArg Transform.elem h
  simp [Transform.avg] at helem

/-- C9 amended: interpolation hits its endpoints in matrix and translation:
Transform.avg(Z, I, 0) agrees with Z and Transform.avg(Z, I, 1) agrees with
I in both A and b (the element reference is not carried over). -/
theorem avg_endpoints (Z I : Transform) :
    ((Transform.avg Z I 0).A = Z.A ∧ (Transform.avg Z I 0).b = Z.b) ∧
    ((Transform.avg Z I 1).A = I.A ∧ (Transform.avg Z I 1).b = I.b) := by
  obtain ⟨⟨⟨x00, x10⟩, ⟨x01, x11⟩⟩, ⟨u0, u1⟩, ze⟩ := Z
  obtain ⟨⟨⟨y00, y10⟩, ⟨y01, y11⟩⟩, ⟨v0, v1⟩, ie⟩ := I
  simp only [Transform.avg, avgMatrix, avgVector, vcadd, scmult, Prod.ext_iff]
  norm_num

/-- C7: a transform whose matrix and translation equal the identity, tied
to a surface, renders to the no-descriptor result (return false, native
scroll mode) for every boundary context. -/
theorem identity_with_context_renders_none (ctx : BoundaryCtx) :
    (Transform.css ⟨((1, 0), (0, 1)), (0, 0), true⟩ ctx).2 = none := by
  simp [Transform.css]

/-- C2: for every non-degenerate source point pair (s0, s1) and every
destination point pair (d0, d1), the transform the solver returns with
rotation enabled maps s0 to d0 and s1 to d1 exactly. -/
theorem zoom_maps_source_to_dest (s0 s1 d0 d1 : Vec) (e : Bool) (h : s0 ≠ s1) :
    (zoom (s0, s1) (d0, d1) true e).applyTo s0 = d0 ∧
    (zoom (s0, s1) (d0, d1) true e).applyTo s1 = d1 := by
  have hne : (s1.1 - s0.1) * (s1.1 - s0.1) + (s1.2 - s0.2) * (s1.2 - s0.2) ≠ 0 := by
    intro hz
    apply h
    have h1 : s1.1 - s0.1 = 0 := by
      nlinarith [mul_self_nonneg (s1.1 - s0.1), mul_self_nonneg (s1.2 - s0.2)]
    have h2 : s1.2 - s0.2 = 0 := by
      nlinarith [mul_self_nonneg (s1.1 - s0.1), mul_self_nonneg (s1.2 - s0.2)]
    have e1 : s0.1 = s1.1 := by linarith
    have e2 : s0.2 = s1.2 := by linarith
    exact Prod.ext e1 e2
  simp only [zoom, Transform.applyTo, rotscale, rotate, justscale, apply, minus,
    dot, wedge, scmult, vcadd, if_true, Prod.ext_iff]
  refine ⟨⟨?_, ?_⟩, ?_, ?_⟩ <;> field_simp <;> ring

/-- Witness for zoom_maps_source_to_dest at the concrete pair
s = ((0,0),(1,0)), d = ((5,5),(7,9)). -/
theorem zoom_maps_source_to_dest_witness :
    (zoom ((0, 0), (1, 0)) ((5, 5), (7, 9)) true false).applyTo (0, 0) = (5, 5) ∧
    (zoom ((0, 0), (1, 0)) ((5, 5), (7, 9)) true false).applyTo (1, 0) = (7, 9) :=
  zoom_maps_source_to_dest (0, 0) (1, 0) (5, 5) (7, 9) false
    (by simp [Prod.ext_iff])

/-- C6: whenever css yields a descriptor, the diagonal scale entries of the
descriptor are at least 1; in particular a transform with diagonal entries
below 1 never emits a below-native scale (it is floored, or collapses to the
no-descriptor result). -/
theorem css_descriptor_diag_floor (T : Transform) (ctx : BoundaryCtx) (d : Descriptor)
    (h : (T.css ctx).2 = some d) : 1 ≤ d.m00 ∧ 1 ≤ d.m11 := by
  have hfloor : ∀ x : ℚ, 1 ≤ (if x < 1 then (1 : ℚ) else x) := by
    intro x
    split_ifs with hx
    · exact le_refl 1
    · linarith
  simp only [Transform.css] at h
  by_cases he : T.elem = true
  · rw [if_pos he] at h
    by_cases hc : (if T.A.1.1 < 1 then (1 : ℚ) else T.A.1.1) = 1 ∧
        (if T.A.2.2 < 1 then (1 : ℚ) else T.A.2.2) = 1
    · rw [if_pos hc] at h
      exact absurd h (by simp)
    · rw [if_neg hc] at h
      simp only [Option.some.injEq] at h
      subst h
      exact ⟨hfloor _, hfloor _⟩
  · rw [if_neg he] at h
    exact absurd h (by simp)

/-- Witness for css_descriptor_diag_floor: a transform scaling x by 1/2 and
y by 2 on a surface renders as the floored descriptor (1, 0, 0, 2, 0, 0). -/
theorem css_descriptor_diag_floor_witness :
    1 ≤ (Descriptor.mk 1 0 0 2 0 0).m00 ∧ 1 ≤ (Descriptor.mk 1 0 0 2 0 0).m11 :=
  css_descriptor_diag_floor ⟨((1/2, 0), (0, 2)), (0, 0), true⟩ ⟨0, 0, 100, 50, 200⟩
    ⟨1, 0, 0, 2, 0, 0⟩ (by norm_num [Transform.css])

/-- C3 counterexample: rendering is not side-effect free on the transform.
For the transform with matrix [[1/2, 0], [0, 3]] (x-scale below 1) and no
element, css floors A[0][0] to 1 in place, so the post-call transform
differs from the original. -/
theorem css_not_immutable :
    (Transform.css ⟨((1/2, 0), (0, 3)), (5, 6), false⟩ ⟨0, 0, 100, 50, 200⟩).1 ≠
      ⟨((1/2, 0), (0, 3)), (5, 6), false⟩ := by
  intro h
  have h00 := congrArg (fun T => T.A.1.1) h
  norm_num [Transform.css] at h00

/-- C3 amended: css mutates the transform in place. The post-call transform
has its diagonal entries floored at 1, the off-diagonal entries and the
element reference unchanged, and, when no element is attached, the
translation unchanged (with an element the pan clamps may also rewrite b).
The other operations (cascade, zoom, Transform.avg) construct new
Transforms. -/
theorem css_post_state (T : Transform) (ctx : BoundaryCtx) :
    (T.css ctx).1.A.1.1 = (if T.A.1.1 < 1 then 1 else T.A.1.1) ∧
    (T.css ctx).1.A.2.2 = (if T.A.2.2 < 1 then 1 else T.A.2.2) ∧
    (T.css ctx).1.A.1.2 = T.A.1.2 ∧
    (T.css ctx).1.A.2.1 = T.A.2.1 ∧
    (T.css ctx).1.elem = T.elem ∧
    (T.elem = false → (T.css ctx).1.b = T.b) := by
  simp only [Transform.css]
  by_cases he : T.elem = true
  · rw [if_pos he]
    by_cases hc : (if T.A.1.1 < 1 then (1 : ℚ) else T.A.1.1) = 1 ∧
        (if T.A.2.2 < 1 then (1 : ℚ) else T.A.2.2) = 1
    · rw [if_pos hc]
      simp [he]
    · rw [if_neg hc]
      simp [he]
  · rw [if_neg he]
    simp

/-- Witness for css_post_state at a transform with no element: the
translation survives the call. -/
theorem css_post_state_witness :
    (Transform.css ⟨((2, 0), (0, 2)), (7, 8), false⟩ ⟨0, 0, 100, 50, 200⟩).1.b = (7, 8) :=
  (css_post_state ⟨((2, 0), (0, 2)), (7, 8), false⟩ ⟨0, 0, 100, 50, 200⟩).2.2.2.2.2 rfl

/-- C4 counterexample: a transform with scale 2 and no element renders to
the no-descriptor result (the return statement of the source sits inside
if (elem), so the call returns undefined), contradicting the claim that a
descriptor is always returned in this case. -/
theorem css_no_elem_not_descriptor :
    (Transform.css ⟨((2, 0), (0, 2)), (1, 1), false⟩ ⟨0, 0, 100, 50, 200⟩).2 = none :=
  (Transform.css_no_elem ⟨((2, 0), (0, 2)), (1, 1), false⟩ ⟨0, 0, 100, 50, 200⟩ rfl).1

/-- C4 amended: for a transform not tied to a surface, rendering skips the
pan clamping (the translation is untouched) and the scale floor still
applies, but no descriptor is ever produced: the result is always the
no-descriptor (undefined) value, and the presentation layer falls back to
native scroll. -/
theorem css_no_elem_skips_clamp_yields_none (T : Transform) (ctx : BoundaryCtx)
    (h : T.elem = false) :
    (T.css ctx).2 = none ∧ (T.css ctx).1.b = T.b ∧
    (T.css ctx).1.A.1.1 = (if T.A.1.1 < 1 then 1 else T.A.1.1) ∧
    (T.css ctx).1.A.2.2 = (if T.A.2.2 < 1 then 1 else T.A.2.2) := by
  unfold Transform.css
  simp [h]

/-- Witness for css_no_elem_skips_clamp_yields_none at a concrete
element-free transform. -/
theorem css_no_elem_skips_clamp_yields_none_witness :
    (Transform.css ⟨((3, 0), (0, 3)), (2, 2), false⟩ ⟨1, 0, 100, 50, 200⟩).2 = none ∧
    (Transform.css ⟨((3, 0), (0, 3)), (2, 2), false⟩ ⟨1, 0, 100, 50, 200⟩).1.b = (2, 2) ∧
    (Transform.css ⟨((3, 0), (0, 3)), (2, 2), false⟩ ⟨1, 0, 100, 50, 200⟩).1.A.1.1 =
      (if (3 : ℚ) < 1 then 1 else 3) ∧
    (Transform.css ⟨((3, 0), (0, 3)), (2, 2), false⟩ ⟨1, 0, 100, 50, 200⟩).1.A.2.2 =
      (if (3 : ℚ) < 1 then 1 else 3) :=
  css_no_elem_skips_clamp_yields_none ⟨((3, 0), (0, 3)), (2, 2), false⟩
    ⟨1, 0, 100, 50, 200⟩ rfl

/-- C5: activeZoom is committed only at finalization. A touch-move session
update (previewZoom, and the touchmove listener in every branch) leaves
activeZoom unchanged and rewrites only resultantZoom; the touchend listener
commits activeZoom to resultantZoom exactly when a session was active; and
setZoom (the reset-step commit path) commits the new transform through
finalize. -/
theorem activeZoom_committed_only_at_finalization (st : ZoomState) (z nz : Transform)
    (dest : Vec × Vec) (rot : Bool) :
    (Zoom.previewZoom st z).activeZoom = st.activeZoom ∧
    (Zoom.touchmove st dest rot).activeZoom = st.activeZoom ∧
    (Zoom.touchend st).activeZoom =
      (if st.zooming then st.resultantZoom else st.activeZoom) ∧
    (Zoom.setZoom st nz).activeZoom = nz := by
  refine ⟨?_, ?_, ?_, ?_⟩
  · rw [Zoom.previewZoom, Zoom.repaint_activeZoom]
  · cases hz : st.zooming <;> cases hi : st.inZoom <;>
      simp [Zoom.touchmove, hz, hi, Zoom.previewZoom, Zoom.repaint_activeZoom]
  · cases hz : st.zooming <;> cases hi : st.inZoom <;>
      simp [Zoom.touchend, hz, hi, Zoom.finalize]
  · rw [Zoom.setZoom, Zoom.repaint_activeZoom]
    rfl

/-- C10: an interpolated transform carries no element reference, css on it
yields no descriptor for every boundary context, and repainting a state
whose resultantZoom is such a transform switches the surface to native
scroll presentation: inZoom false, overflow scroll, transform style none.
Every intermediate frame of an animated reset goes through setZoom with
such a Transform.avg value, so no blended frame is ever shown. -/
theorem avg_frames_render_native_scroll (Z I : Transform) (p : ℚ) (ctx : BoundaryCtx)
    (st : ZoomState) :
    (Transform.avg Z I p).elem = false ∧
    ((Transform.avg Z I p).css ctx).2 = none ∧
    (Zoom.repaint { st with resultantZoom := Transform.avg Z I p }).inZoom = false ∧
    (Zoom.repaint { st with resultantZoom := Transform.avg Z I p }).overflow = "scroll" ∧
    (Zoom.repaint { st with resultantZoom := Transform.avg Z I p }).transformStyle
      = none := by
  have he : (Transform.avg Z I p).elem = false := rfl
  have hnone : ∀ c : BoundaryCtx, ((Transform.avg Z I p).css c).2 = none :=
    fun c => (Transform.css_no_elem _ c he).1
  refine ⟨he, hnone ctx, ?_, ?_, ?_⟩ <;>
    simp [Zoom.repaint, hnone]

/-- A mid-gesture session whose two captured source contacts coincide (two
fingers at the exact same pixel at touch-start): zooming is set, srcCoords
is the degenerate pair ((0,0),(0,0)), both transforms are the identity. -/
def degenerateSession : ZoomState where
  zooming := true
  inZoom := false
  tapped := false
  activeZoom := identity
  resultantZoom := identity
  srcCoords := ((0, 0), (0, 0))
  ctx := ⟨10, 0, 1000, 50, 200⟩
  overflow := "scroll"
  transformStyle := none

/-- C1 counterexample: on a touch-move with a zero source delta the engine
does not skip the update: from degenerateSession, a move to ((2,3),(5,7))
still runs the solver (dividing by the zero squared length) and rewrites
resultantZoom, so the transform state does not stay unchanged. In the
source the same call chain runs unconditionally and fills the transform
with non-finite entries; no fault is raised in either reading. -/
theorem touchmove_zero_source_delta_updates_state :
    (Zoom.touchmove degenerateSession ((2, 3), (5, 7)) true).resultantZoom ≠
      degenerateSession.resultantZoom := by
  intro h
  have hb := congrArg (fun T => T.b.2) h
  norm_num [Zoom.touchmove, Zoom.previewZoom, Zoom.repaint, Transform.css, cascade,
    zoom, rotscale, rotate, mult, apply, vcadd, scmult, minus, dot, wedge,
    degenerateSession, identity] at hb

/-- C1 amended: the touch-move listener has no zero-delta guard: whenever a
session is active (zooming), it always computes the incremental transform
from the captured source pair (even a degenerate one) and installs the
composition through previewZoom; the computation is total, so no fault is
raised, but a degenerate source pair yields a degenerate transform instead
of being skipped. -/
theorem touchmove_always_updates_when_zooming (st : ZoomState) (dest : Vec × Vec)
    (rot : Bool) (h : st.zooming = true) :
    Zoom.touchmove st dest rot =
      Zoom.previewZoom st (zoom st.srcCoords dest rot false) := by
  unfold Zoom.touchmove
  simp [h]

/-- Witness for touchmove_always_updates_when_zooming at the degenerate
session. -/
theorem touchmove_always_updates_when_zooming_witness :
    Zoom.touchmove degenerateSession ((2, 3), (5, 7)) true =
      Zoom.previewZoom degenerateSession
        (zoom degenerateSession.srcCoords ((2, 3), (5, 7)) true false) :=
  touchmove_always_updates_when_zooming degenerateSession ((2, 3), (5, 7)) true rfl
